import Mathlib

set_option autoImplicit false

/- Verification of the tunnyd gateway session engine against its design
document. The Rust sources (src/cli.rs, src/docker.rs, src/server.rs) are
shallowly embedded below: Rust HashMaps become association lists, the
container engine and the SSH reply handle become explicit oracle
parameters / effect lists, async tasks become pure functions from their
captured data to the list of effects they perform, and fallible calls
return Except. -/

namespace TunnyD

/- ------------------------------------------------------------------ -/
/- src/docker.rs                                                       -/
/- ------------------------------------------------------------------ -/

/-- Label key `tunnyD.enable` (src/docker.rs line 11). -/
def SSH_ENABLE_LABEL_KEY : String := "tunnyD.enable"

/-- Label key `tunnyD.hostname` (src/docker.rs line 12). -/
def SSH_HOSTNAME_LABEL_KEY : String := "tunnyD.hostname"

/-- Label key `tunnyD.allowed.users` (src/docker.rs line 13). -/
def SSH_ALLOWED_USERS_LABEL_KEY : String := "tunnyD.allowed.users"

/-- Helper for `commaSplit`: walks the characters, cutting at every comma.
`acc` holds the characters of the current piece in reverse. -/
def commaSplitChars : List Char → List Char → List String
  | [], acc => [String.mk acc.reverse]
  | c :: rest, acc =>
    if c == ',' then String.mk acc.reverse :: commaSplitChars rest []
    else commaSplitChars rest (c :: acc)

/-- Rust's `str::split(',')` collected into a Vec: pieces between commas,
with `""` splitting to `[""]` (never an empty list). -/
def commaSplit (s : String) : List String :=
  commaSplitChars s.data []

/-- Container labels: Rust `HashMap<String, String>` modelled as an
association list; `labels.get(k)` is `labelGet labels k` (first match). -/
def labelGet : List (String × String) → String → Option String
  | [], _ => none
  | (k, v) :: rest, key => if k == key then some v else labelGet rest key

/-- Embeds `check_container_validity` (src/docker.rs lines 46-67): the
container passes iff the enable label is present and equals "true", the
hostname label (defaulted to "") equals `target`, and the comma-split
allowed-users list is empty (label absent) or `user` is non-empty and
contained in it. -/
def check_container_validity (labels : List (String × String))
    (target : String) (user : String) : Bool :=
  match labelGet labels SSH_ENABLE_LABEL_KEY with
  | some value =>
    let allow_users : List String :=
      match labelGet labels SSH_ALLOWED_USERS_LABEL_KEY with
      | none => []
      | some users => commaSplit users
    (value == "true")
      && ((labelGet labels SSH_HOSTNAME_LABEL_KEY).getD "" == target)
      && (allow_users.isEmpty
          || (!user.isEmpty && allow_users.contains user))
  | none => false

/-- Engine-reported container metadata (bollard `ContainerSummary`,
restricted to the fields the gateway reads). -/
structure ContainerSummary where
  id : Option String
  labels : Option (List (String × String))
  deriving DecidableEq

/-- Bollard error value returned by the resolver on no match
(src/docker.rs lines 117-120). -/
inductive DockerError
  | dockerContainerWaitError (error : String) (code : Nat)
  deriving DecidableEq

/-- Parsed exec-request arguments (src/cli.rs lines 32-35). -/
structure ContainerArgs where
  user : Option String
  target : String
  deriving DecidableEq

/-- Embeds the scan loop of `find_ssh_enabled_container` (src/docker.rs
lines 92-121) over an already-fetched container list: skip label-less
containers, return the first one passing `check_container_validity`
(the request user defaulted to "" as in `args.user.clone().unwrap_or_default()`),
else fail with the `No Available Container matches` error. -/
def find_ssh_enabled_container (containers : List ContainerSummary)
    (target : String) (user : Option String) :
    Except DockerError ContainerSummary :=
  match containers with
  | [] => Except.error
      (DockerError.dockerContainerWaitError "No Available Container matches" 0)
  | container :: rest =>
    match container.labels with
    | none => find_ssh_enabled_container rest target user
    | some labels =>
      if check_container_validity labels target (user.getD "") then
        Except.ok container
      else
        find_ssh_enabled_container rest target user

/-- Claim-side eligibility predicate, written from the specification's
words (spec §4.1): enable label present and equal to "true", hostname
label (absent treated as "") equal to the target, and the comma-split
allowed-users list empty or the user non-empty and contained in it;
containers without labels are never eligible. -/
def eligibleForRequest (c : ContainerSummary) (target : String)
    (user : Option String) : Bool :=
  match c.labels with
  | none => false
  | some labels =>
    (labelGet labels SSH_ENABLE_LABEL_KEY == some "true")
      && ((labelGet labels SSH_HOSTNAME_LABEL_KEY).getD "" == target)
      && (let allowUsers : List String :=
            match labelGet labels SSH_ALLOWED_USERS_LABEL_KEY with
            | none => []
            | some users => commaSplit users
          allowUsers.isEmpty
            || (!(user.getD "").isEmpty && allowUsers.contains (user.getD "")))

/-- Decidable equality for `Except`, used to evaluate resolver results on
concrete inputs. -/
instance exceptDecEq {ε α : Type} [DecidableEq ε] [DecidableEq α] :
    DecidableEq (Except ε α) := fun x y =>
  match x, y with
  | Except.ok a, Except.ok b =>
    if h : a = b then Decidable.isTrue (by rw [h])
    else Decidable.isFalse (by simp [h])
  | Except.error a, Except.error b =>
    if h : a = b then Decidable.isTrue (by rw [h])
    else Decidable.isFalse (by simp [h])
  | Except.ok _, Except.error _ => Decidable.isFalse (by simp)
  | Except.error _, Except.ok _ => Decidable.isFalse (by simp)

/-- Concrete label set whose allowed-users label is present but empty. -/
def emptyAllowLabels : List (String × String) :=
  [(SSH_ENABLE_LABEL_KEY, "true"), (SSH_HOSTNAME_LABEL_KEY, "db1"),
   (SSH_ALLOWED_USERS_LABEL_KEY, "")]

/- ------------------------------------------------------------------ -/
/- src/cli.rs                                                          -/
/- ------------------------------------------------------------------ -/

/-- Outcome of `parse_and_match_args` (src/cli.rs lines 59-74): clap's
`get_matches_from` either produces matches or, on any parse error
(unknown flag, missing value, missing required target), prints a
diagnostic and exits the whole process (`clap::Error::exit`); the exit is
modelled as the `abort` outcome, from which no handler code runs. -/
inductive ParseOutcome
  | ok (args : ContainerArgs)
  | abort
  deriving DecidableEq

/-- Clap matching for the `cli()` command (src/cli.rs lines 4-23): walks
the tokens, recognising `-t`/`--target VALUE` and `-u`/`--user VALUE`;
any other token, or a flag without a value, is a parse error. -/
def matchTokens : List String → Option String → Option String →
    Option (Option String × Option String)
  | [], target, user => some (target, user)
  | tok :: rest, target, user =>
    if tok == "-t" || tok == "--target" then
      match rest with
      | [] => none
      | v :: rest2 => matchTokens rest2 (some v) user
    else if tok == "-u" || tok == "--user" then
      match rest with
      | [] => none
      | v :: rest2 => matchTokens rest2 target (some v)
    else none

/-- Embeds `parse_and_match_args` (src/cli.rs lines 59-74) over the
shell-tokenized payload: a parse error, or a missing required `target`,
makes clap exit the process (`abort`); otherwise the matched target and
optional user are returned as `ContainerArgs`. -/
def parse_and_match_args (payload : List String) : ParseOutcome :=
  match matchTokens payload none none with
  | none => ParseOutcome.abort
  | some (none, _) => ParseOutcome.abort
  | some (some target, user) => ParseOutcome.ok { user := user, target := target }

/- ------------------------------------------------------------------ -/
/- src/server.rs                                                       -/
/- ------------------------------------------------------------------ -/

/-- Container-process input sink (the `Pin<Box<dyn AsyncWrite>>` half of
an attachment): records the chunks written to it; `failing` is the
environment's behaviour oracle — when true, every `write_all` fails. -/
structure InputSink where
  written : List (List Nat)
  failing : Bool
  deriving DecidableEq

/-- Item of the container-process output stream
(`Result<LogOutput, bollard::errors::Error>`): `ok` carries the chunk's
bytes (`data.into_bytes()`), `err` the engine error's display text. -/
inductive LogStreamItem
  | ok (bytes : List Nat)
  | err (e : String)
  deriving DecidableEq

/-- Embeds `OutputInputPair` (src/server.rs lines 30-34). -/
structure OutputInputPair where
  output : List LogStreamItem
  input : InputSink
  deriving DecidableEq

/-- Embeds `Client` (src/server.rs lines 49-52); the russh session handle
is reduced to an opaque identifier. -/
structure Client where
  session_handle : Nat
  io : Option OutputInputPair
  deriving DecidableEq

/-- Session key `(usize, ChannelId)`. -/
abbrev SessionKey := Nat × Nat

/-- The session registry `HashMap<(usize, ChannelId), Client>` modelled
as an association list. -/
abbrev Clients := List (SessionKey × Client)

/-- HashMap lookup (first matching key). -/
def lookupClient : Clients → SessionKey → Option Client
  | [], _ => none
  | (k, c) :: rest, key => if k = key then some c else lookupClient rest key

/-- HashMap insert / in-place update: replaces any entry with the same
key. -/
def insertClient (clients : Clients) (key : SessionKey) (c : Client) : Clients :=
  (key, c) :: clients.filter (fun p => decide (p.1 ≠ key))

/-- Embeds `channel_open_session` (src/server.rs lines 282-298): register
the channel's client with the session handle and no io pair. -/
def channel_open_session (clients : Clients) (selfId channel handleId : Nat) :
    Clients :=
  insertClient clients (selfId, channel)
    { session_handle := handleId, io := none }

/-- Signals the handler can send back over the russh session
(request/channel success and failure acknowledgements). -/
inductive Signal
  | requestSuccess
  | channelSuccess (channel : Nat)
  | requestFailure
  | channelFailure (channel : Nat)
  deriving DecidableEq

/-- Behaviour of `io.input.write_all(data).await`: appends the chunk on
success; fails (writing nothing) when the sink's oracle says so. -/
def write_all (s : InputSink) (bytes : List Nat) :
    InputSink × Except String Unit :=
  if s.failing then (s, Except.error "write failed")
  else ({ s with written := s.written ++ [bytes] }, Except.ok ())

/-- Embeds the `data` handler (src/server.rs lines 353-380): an
unregistered key fails with "Client Not ready"; a registered key without
an io pair does nothing with the bytes; with an io pair the bytes are
written to the input sink and the write's result is discarded
(`.map_or((), |_| ())`); on the non-error paths `request_success` and
`channel_success` are then sent. -/
def data (clients : Clients) (selfId channel : Nat) (bytes : List Nat) :
    Except String (Clients × List Signal) :=
  let client_id : SessionKey := (selfId, channel)
  match lookupClient clients client_id with
  | none => Except.error "Client Not ready"
  | some client =>
    match client.io with
    | none =>
      Except.ok (clients, [Signal.requestSuccess, Signal.channelSuccess channel])
    | some pair =>
      let wr := write_all pair.input bytes
      Except.ok
        (insertClient clients client_id
          { client with io := some { pair with input := wr.1 } },
         [Signal.requestSuccess, Signal.channelSuccess channel])

/-- UTF-8 encoding of one character (what Rust's `String::into_bytes`
produces per char). -/
def utf8Encode (c : Char) : List Nat :=
  let n := c.toNat
  if n < 0x80 then [n]
  else if n < 0x800 then [0xC0 + n / 64, 0x80 + n % 64]
  else if n < 0x10000 then [0xE0 + n / 4096, 0x80 + (n / 64) % 64, 0x80 + n % 64]
  else [0xF0 + n / 262144, 0x80 + (n / 4096) % 64, 0x80 + (n / 64) % 64, 0x80 + n % 64]

/-- UTF-8 bytes of a string (Rust `String::into_bytes`). -/
def strToBytes (s : String) : List Nat :=
  s.data.flatMap utf8Encode

/-- Embeds the closure of `forward_container_output_to_session`
(src/server.rs lines 92-127) as the bytes it pushes to the channel for
one stream item: an Ok item's own bytes, or the text `Error: <e>` for an
Err item. The reply handle is modelled as accepting every push (the
source merely logs a failed push of an Ok item's bytes). -/
def forward_container_output_to_session (channel : Nat)
    (item : LogStreamItem) : List Nat :=
  match item with
  | LogStreamItem.ok bytes => bytes
  | LogStreamItem.err e => strToBytes ("Error: " ++ e)

/-- The exit-notice text pushed after stream exhaustion (src/server.rs
line 254; note the space before the CRLF). -/
def exitNotice : String := "Docker Container exited process \r\n"

/-- The outbound bridge task spawned by `link_io`: the data it captures
(the channel id and the shared output stream); the spawned closure does
not capture the clients map. -/
structure BridgeTask where
  channel : Nat
  stream : List LogStreamItem
  deriving DecidableEq

/-- Effects the bridge task performs over the reply handle: the chunk
sequence pushed with `handle.data`, and how often `handle.close` ran. -/
structure BridgeEffects where
  sent : List (List Nat)
  closes : Nat
  deriving DecidableEq

/-- The `stream.for_each(forward_container_output_to_session ...)` loop:
one pushed chunk per stream item, in production order, for the entire
stream. -/
def drainStream (channel : Nat) : List LogStreamItem → List (List Nat)
  | [] => []
  | item :: rest =>
    forward_container_output_to_session channel item :: drainStream channel rest

/-- Embeds the task spawned in `link_io` (src/server.rs lines 241-259)
run to completion: drain the whole output stream, then push the exit
notice and close the channel. It performs no operation on the clients
map (the closure does not capture it). -/
def runBridgeTask (task : BridgeTask) : BridgeEffects :=
  { sent := drainStream task.channel task.stream ++ [strToBytes exitNotice],
    closes := 1 }

/-- Embeds bollard's `StartExecResults`. -/
inductive StartExecResults
  | attached (input : InputSink) (output : List LogStreamItem)
  | detached
  deriving DecidableEq

/-- The fields of bollard's `CreateExecOptions` that
`create_and_start_exec` sets (src/server.rs lines 157-165); every other
field keeps its engine default. -/
structure CreateExecOptions where
  attach_stdout : Option Bool
  attach_stderr : Option Bool
  attach_stdin : Option Bool
  cmd : Option (List String)
  tty : Option Bool
  user : Option String
  deriving DecidableEq

/-- Bollard's `StartExecOptions` restricted to the field the source sets. -/
structure StartExecOptions where
  detach : Bool
  deriving DecidableEq

/-- One call made to the container engine, with its arguments. -/
inductive EngineCall
  | createExec (container_id : String) (options : CreateExecOptions)
  | startExec (exec_id : String) (options : StartExecOptions)
  deriving DecidableEq

/-- Embeds `create_and_start_exec` (src/server.rs lines 149-195) against
engine oracles `createExec`/`startExec`; returns the result together
with the list of engine calls made, in order. -/
def create_and_start_exec
    (createExec : String → CreateExecOptions → Except String String)
    (startExec : String → StartExecOptions → Except String StartExecResults)
    (user : Option String) (container_id : String) :
    Except String StartExecResults × List EngineCall :=
  let options : CreateExecOptions :=
    { attach_stdout := some true, attach_stderr := some true,
      attach_stdin := some true, cmd := some ["bash"], tty := some true,
      user := user }
  match createExec container_id options with
  | Except.error e =>
    (Except.error e, [EngineCall.createExec container_id options])
  | Except.ok exec_id =>
    let start_options : StartExecOptions := { detach := false }
    match startExec exec_id start_options with
    | Except.error e =>
      (Except.error e,
       [EngineCall.createExec container_id options,
        EngineCall.startExec exec_id start_options])
    | Except.ok results =>
      (Except.ok results,
       [EngineCall.createExec container_id options,
        EngineCall.startExec exec_id start_options])

/-- Embeds `link_io` (src/server.rs lines 220-260): look the client up
(`.expect("Client not found")` — `none` models the panic), install the
io pair into its registry entry, and spawn the bridge task over the
shared output stream. -/
def link_io (clients : Clients) (client_id : SessionKey) (channel : Nat)
    (input : InputSink) (output : List LogStreamItem) :
    Option (Clients × BridgeTask) :=
  match lookupClient clients client_id with
  | none => none
  | some client =>
    some (insertClient clients client_id
            { client with io := some { output := output, input := input } },
          { channel := channel, stream := output })

/-- Embeds `handle_output` (src/server.rs lines 197-208): only an
`Attached` result is linked; a detached result is ignored. -/
def handle_output (process : StartExecResults) (clients : Clients)
    (client_id : SessionKey) (channel : Nat) :
    Option (Clients × Option BridgeTask) :=
  match process with
  | StartExecResults.attached input output =>
    match link_io clients client_id channel input output with
    | none => none
    | some (clients2, task) => some (clients2, some task)
  | StartExecResults.detached => some (clients, none)

/-- Error values the exec-request handler can return (anyhow messages in
the source). -/
inductive HandlerError
  | containerIdNotFound
  | docker (e : DockerError)
  | engine (e : String)
  deriving DecidableEq

/-- Outcome of one exec-request event: the process died inside clap
(`aborted`), a panic (`panicked`), the handler returned `Err` (with the
registry as the handler left it), or the handler returned `Ok` after
sending its signals (with the spawned bridge task, if any). -/
inductive ExecOutcome
  | aborted
  | panicked
  | errored (clients : Clients) (e : HandlerError)
  | completed (clients : Clients) (signals : List Signal)
      (bridge : Option BridgeTask)
  deriving DecidableEq

/-- Embeds the `exec_request` handler (src/server.rs lines 309-337):
parse the payload (clap exits on malformed input), resolve the container
over the engine's list, extract its id, create and start the exec, link
the io pair, and only then send `request_success` and `channel_success`;
every `Err` path returns before any signal is sent. -/
def exec_request (payload : List String)
    (containers : List ContainerSummary)
    (createExec : String → CreateExecOptions → Except String String)
    (startExec : String → StartExecOptions → Except String StartExecResults)
    (clients : Clients) (selfId channel : Nat) : ExecOutcome :=
  match parse_and_match_args payload with
  | ParseOutcome.abort => ExecOutcome.aborted
  | ParseOutcome.ok args =>
    let client_id : SessionKey := (selfId, channel)
    let container_id : Except HandlerError String :=
      match find_ssh_enabled_container containers args.target args.user with
      | Except.ok t =>
        match t.id with
        | some i => Except.ok i
        | none => Except.error HandlerError.containerIdNotFound
      | Except.error e => Except.error (HandlerError.docker e)
    match container_id with
    | Except.error e => ExecOutcome.errored clients e
    | Except.ok id =>
      match (create_and_start_exec createExec startExec args.user id).1 with
      | Except.error e => ExecOutcome.errored clients (HandlerError.engine e)
      | Except.ok process =>
        match handle_output process clients client_id channel with
        | none => ExecOutcome.panicked
        | some (clients2, task) =>
          ExecOutcome.completed clients2
            [Signal.requestSuccess, Signal.channelSuccess channel] task

/-- The signals an exec-request outcome sent over the session. -/
def sentSignals : ExecOutcome → List Signal
  | ExecOutcome.completed _ signals _ => signals
  | _ => []

/-- The registry as the outcome left it. -/
def outcomeClients : ExecOutcome → Clients
  | ExecOutcome.errored clients _ => clients
  | ExecOutcome.completed clients _ _ => clients
  | _ => []

/-- The bridge task the outcome spawned, if any. -/
def outcomeTask : ExecOutcome → Option BridgeTask
  | ExecOutcome.completed _ _ task => task
  | _ => none

/-- Engine oracle that accepts every create-exec call. -/
def okCreate : String → CreateExecOptions → Except String String :=
  fun _ _ => Except.ok "exec1"

/-- Engine oracle that starts every exec attached, with an empty input
sink and an already-exhausted output stream. -/
def okStartAttached : String → StartExecOptions → Except String StartExecResults :=
  fun _ _ =>
    Except.ok (StartExecResults.attached { written := [], failing := false } [])

/-- Registry with the single key (1, 7) registered at channel open. -/
def demoClients : Clients := channel_open_session [] 1 7 0

/-- One-container engine list: enabled, hostname "db1", no allowed-users
label. -/
def demoContainers : List ContainerSummary :=
  [{ id := some "c0",
     labels := some [(SSH_ENABLE_LABEL_KEY, "true"),
                     (SSH_HOSTNAME_LABEL_KEY, "db1")] }]

/-- Registry with the single key (1, 7) attached to a failing input
sink. -/
def failingClients : Clients :=
  insertClient [] (1, 7)
    { session_handle := 0,
      io := some { output := [], input := { written := [], failing := true } } }

/-- Outcome of a fully successful exec request against the demo registry
and engine. -/
def demoOutcome : ExecOutcome :=
  exec_request ["-t", "db1"] demoContainers okCreate okStartAttached
    demoClients 1 7

/-- Per-container agreement between the source check and the claim-side
eligibility predicate. -/
theorem check_eq_eligible (c : ContainerSummary) (target : String)
    (user : Option String) :
    (match c.labels with
     | none => false
     | some labels => check_container_validity labels target (user.getD ""))
      = eligibleForRequest c target user := by
  cases c with
  | mk id labels =>
    cases labels with
    | none => rfl
    | some ls =>
      simp only [eligibleForRequest, check_container_validity]
      cases h : labelGet ls SSH_ENABLE_LABEL_KEY with
      | none => simp [h]
      | some v => simp [h]

/-- C1: for every container list and every (target, user) request, the
resolver returns the first container in engine-reported order whose labels
make it eligible (enable label "true", hostname label defaulted to ""
equal to the target, and comma-split allowed-users list empty or user
non-empty and contained in it); label-less containers are skipped, and
with no eligible container it fails with the NotFound error. -/
theorem find_ssh_enabled_container_first_eligible
    (containers : List ContainerSummary) (target : String)
    (user : Option String) :
    find_ssh_enabled_container containers target user =
      match containers.find? (fun c => eligibleForRequest c target user) with
      | some c => Except.ok c
      | none => Except.error
          (DockerError.dockerContainerWaitError "No Available Container matches" 0) := by
  induction containers with
  | nil => rfl
  | cons c rest ih =>
    have hc := check_eq_eligible c target user
    cases hl : c.labels with
    | none =>
      have he : eligibleForRequest c target user = false := by
        rw [← hc, hl]
      simp only [find_ssh_enabled_container, hl, List.find?, he, ih]
    | some ls =>
      by_cases hv : check_container_validity ls target (user.getD "") = true
      · have he : eligibleForRequest c target user = true := by
          rw [← hc, hl]; exact hv
        simp only [find_ssh_enabled_container, hl, hv, if_true, List.find?, he]
      · have hv' : check_container_validity ls target (user.getD "") = false :=
          Bool.eq_false_iff.mpr hv
        have he : eligibleForRequest c target user = false := by
          rw [← hc, hl]; exact hv'
        simp only [find_ssh_enabled_container, hl, hv', List.find?, he, ih,
          Bool.false_eq_true, if_false]

/-- C7 counterexample: a container whose enable label is "true", whose
hostname label equals the target "db1", and whose allowed-users label is
present but EMPTY is claimed unrestricted (selected for every user), yet
the code rejects it for every user: `"".split(',')` yields `[""]`, a
non-empty allow-list that no user can match (the empty user is excluded
explicitly, a non-empty user is not `""`). -/
theorem empty_allow_label_not_unrestricted :
    check_container_validity emptyAllowLabels "db1" "alice" = false
    ∧ check_container_validity emptyAllowLabels "db1" "" = false
    ∧ find_ssh_enabled_container
        [{ id := some "c0", labels := some emptyAllowLabels }] "db1" (some "alice")
        = Except.error
            (DockerError.dockerContainerWaitError "No Available Container matches" 0) := by
  exact ⟨by decide, by decide, by decide⟩

/-- C7 amended: a container whose enable label is "true" and whose
hostname label matches the target is unrestricted only when the
allowed-users label is ABSENT (then it is selected for every user,
including the empty user); when the label is present with the empty
string value, its comma-split list is `[""]` and the container is
rejected for every user. -/
theorem allowed_users_absent_iff_unrestricted :
    (∀ (labels : List (String × String)) (target user : String),
       labelGet labels SSH_ALLOWED_USERS_LABEL_KEY = none →
       labelGet labels SSH_ENABLE_LABEL_KEY = some "true" →
       (labelGet labels SSH_HOSTNAME_LABEL_KEY).getD "" = target →
       check_container_validity labels target user = true)
    ∧ (∀ (labels : List (String × String)) (target user : String),
       labelGet labels SSH_ALLOWED_USERS_LABEL_KEY = some "" →
       check_container_validity labels target user = false) := by
  constructor
  · intro labels target user hau hen hh
    simp [check_container_validity, hau, hen, hh]
  · intro labels target user hau
    cases hen : labelGet labels SSH_ENABLE_LABEL_KEY with
    | none => simp [check_container_validity, hen]
    | some v =>
      have hsplit : commaSplit "" = [""] := by decide
      by_cases hu : user = ""
      · subst hu
        simp only [check_container_validity, hen, hau, hsplit]
        simp
        exact fun _ _ => by decide
      · have hne : (("" : String) == user) = false := by
          simp [beq_iff_eq]
          exact fun h => hu h.symm
        simp only [check_container_validity, hen, hau, hsplit, List.contains]
        simp [hne]
        exact fun _ _ _ => hu

/-- Witness for `allowed_users_absent_iff_unrestricted` at concrete
inputs: the absent-label container accepts the user "carol", the
empty-label container rejects her. -/
theorem allowed_users_absent_iff_unrestricted_witness :
    check_container_validity
      [(SSH_ENABLE_LABEL_KEY, "true"), (SSH_HOSTNAME_LABEL_KEY, "db1")]
      "db1" "carol" = true
    ∧ check_container_validity emptyAllowLabels "db1" "carol" = false :=
  ⟨allowed_users_absent_iff_unrestricted.1
      [(SSH_ENABLE_LABEL_KEY, "true"), (SSH_HOSTNAME_LABEL_KEY, "db1")]
      "db1" "carol" (by decide) (by decide) (by decide),
   allowed_users_absent_iff_unrestricted.2 emptyAllowLabels "db1" "carol" (by decide)⟩

/-- The for_each loop pushes exactly one chunk per stream item, in
order. -/
theorem drainStream_eq_map (channel : Nat) (stream : List LogStreamItem) :
    drainStream channel stream
      = stream.map (forward_container_output_to_session channel) := by
  induction stream with
  | nil => rfl
  | cons item rest ih => simp [drainStream, ih]

/-- UTF-8 encoding distributes over string concatenation. -/
theorem strToBytes_append (a b : String) :
    strToBytes (a ++ b) = strToBytes a ++ strToBytes b := by
  simp [strToBytes, String.data_append]

/-- Lookup after a HashMap insert at the same key. -/
theorem lookupClient_insert (clients : Clients) (key : SessionKey) (c : Client) :
    lookupClient (insertClient clients key c) key = some c := by
  simp [insertClient, lookupClient]

/-- C5: the bridge forwards every stream item's chunk to the channel in
production order — successful items as their own bytes, error items as a
formatted `Error: <text>` line whose bytes end in the error text — and
it processes the entire stream (one chunk per item plus the final
notice), never stopping at an error item. -/
theorem bridge_forwards_every_item (channel : Nat)
    (stream : List LogStreamItem) :
    (runBridgeTask { channel := channel, stream := stream }).sent.take
        stream.length
      = stream.map (forward_container_output_to_session channel)
    ∧ (runBridgeTask { channel := channel, stream := stream }).sent.length
        = stream.length + 1
    ∧ (∀ bytes, forward_container_output_to_session channel
          (LogStreamItem.ok bytes) = bytes)
    ∧ (∀ e, forward_container_output_to_session channel (LogStreamItem.err e)
          = strToBytes "Error: " ++ strToBytes e) := by
  refine ⟨?_, ?_, fun bytes => rfl, fun e => ?_⟩
  · have h := drainStream_eq_map channel stream
    calc (runBridgeTask { channel := channel, stream := stream }).sent.take
            stream.length
        = (stream.map (forward_container_output_to_session channel)
            ++ [strToBytes exitNotice]).take
              (stream.map (forward_container_output_to_session channel)).length := by
          simp [runBridgeTask, h]
      _ = stream.map (forward_container_output_to_session channel) :=
          List.take_left _ _
  · simp [runBridgeTask, drainStream_eq_map]
  · calc forward_container_output_to_session channel (LogStreamItem.err e)
        = strToBytes ("Error: " ++ e) := rfl
      _ = strToBytes "Error: " ++ strToBytes e := strToBytes_append _ _

/-- C6 counterexample: the bridge's final notice is the literal
"Docker Container exited process \r\n" — with a space before the CRLF —
so on an already-exhausted stream the only chunk it sends is that text's
bytes, which differ from the claimed wire text
"Docker Container exited process\r\n". -/
theorem exit_notice_text_differs :
    runBridgeTask { channel := 7, stream := [] }
      = { sent := [strToBytes exitNotice], closes := 1 }
    ∧ exitNotice ≠ "Docker Container exited process\r\n"
    ∧ strToBytes exitNotice
        ≠ strToBytes "Docker Container exited process\r\n" := by
  exact ⟨by decide, by decide, by decide⟩

/-- C6 amended: after the output stream ends the bridge sends exactly one
final notice, with the exact wire text
"Docker Container exited process \r\n" (a space before the CRLF), as the
last chunk after all stream chunks, and then closes the channel exactly
once. -/
theorem bridge_exit_notice_once (task : BridgeTask) :
    (runBridgeTask task).sent
      = task.stream.map (forward_container_output_to_session task.channel)
        ++ [strToBytes "Docker Container exited process \r\n"]
    ∧ (runBridgeTask task).closes = 1 := by
  refine ⟨?_, rfl⟩
  simp [runBridgeTask, drainStream_eq_map, exitNotice]

/-- C9: on a payload without the required target option — here the empty
payload — clap's `get_matches_from` exits the process instead of
returning, so the exec-request handler never produces an `Err` value or
a request-failure signal for a malformed payload: the flow ends in the
`aborted` outcome with no signal sent, whatever the engine, registry or
identifiers. -/
theorem malformed_payload_aborts (containers : List ContainerSummary)
    (createExec : String → CreateExecOptions → Except String String)
    (startExec : String → StartExecOptions → Except String StartExecResults)
    (clients : Clients) (selfId channel : Nat) :
    parse_and_match_args [] = ParseOutcome.abort
    ∧ exec_request [] containers createExec startExec clients selfId channel
        = ExecOutcome.aborted
    ∧ sentSignals
        (exec_request [] containers createExec startExec clients selfId channel)
        = [] := by
  exact ⟨rfl, rfl, rfl⟩

/-- C4: for every data event — an unregistered session key fails with the
"Client Not ready" error; a registered key without an attachment drops
the bytes silently (registry unchanged, nothing written) while still
acknowledging the request; a registered key with an attachment (whose
sink accepts the write) gets the bytes appended to the process input
sink; both registered cases acknowledge with request and channel
success. -/
theorem data_event_cases (clients : Clients) (selfId channel : Nat)
    (bytes : List Nat) :
    (lookupClient clients (selfId, channel) = none →
       data clients selfId channel bytes = Except.error "Client Not ready")
    ∧ (∀ client, lookupClient clients (selfId, channel) = some client →
       client.io = none →
       data clients selfId channel bytes
         = Except.ok
             (clients, [Signal.requestSuccess, Signal.channelSuccess channel]))
    ∧ (∀ client pair, lookupClient clients (selfId, channel) = some client →
       client.io = some pair → pair.input.failing = false →
       data clients selfId channel bytes
         = Except.ok
             (insertClient clients (selfId, channel)
               { client with io := some { pair with
                   input := { pair.input with
                     written := pair.input.written ++ [bytes] } } },
              [Signal.requestSuccess, Signal.channelSuccess channel]))
    ∧ (∀ client pair, lookupClient clients (selfId, channel) = some client →
       client.io = some pair →
       ∃ clients2, data clients selfId channel bytes
         = Except.ok
             (clients2, [Signal.requestSuccess, Signal.channelSuccess channel])) := by
  refine ⟨?_, ?_, ?_, ?_⟩
  · intro h
    simp [data, h]
  · intro client h1 h2
    simp [data, h1, h2]
  · intro client pair h1 h2 h3
    simp [data, h1, h2, write_all, h3]
  · intro client pair h1 h2
    refine ⟨insertClient clients (selfId, channel)
      { client with io := some { pair with input := (write_all pair.input bytes).1 } }, ?_⟩
    simp [data, h1, h2]

/-- Witness for `data_event_cases`: on the demo registry, whose key
(1, 7) is registered without an attachment, the bytes are dropped and
the event is acknowledged. -/
theorem data_event_cases_witness :
    data demoClients 1 7 [104, 105]
      = Except.ok (demoClients, [Signal.requestSuccess, Signal.channelSuccess 7]) :=
  (data_event_cases demoClients 1 7 [104, 105]).2.1
    { session_handle := 0, io := none } (by decide) rfl

/-- C10: when the session key is registered and attached but the write to
the process input sink fails, the error is discarded
(`.map_or((), |_| ())`): the handler still acknowledges the data request
with request and channel success and never returns an error. -/
theorem data_write_failure_still_acknowledged (clients : Clients)
    (selfId channel : Nat) (bytes : List Nat) (client : Client)
    (pair : OutputInputPair)
    (h1 : lookupClient clients (selfId, channel) = some client)
    (h2 : client.io = some pair) (h3 : pair.input.failing = true) :
    data clients selfId channel bytes
      = Except.ok
          (insertClient clients (selfId, channel) { client with io := some pair },
           [Signal.requestSuccess, Signal.channelSuccess channel]) := by
  simp [data, h1, h2, write_all, h3]

/-- Witness for `data_write_failure_still_acknowledged`: on the registry
whose attachment has a failing sink, the event still succeeds with both
acknowledgements sent. -/
theorem data_write_failure_still_acknowledged_witness :
    data failingClients 1 7 [104]
      = Except.ok
          (failingClients, [Signal.requestSuccess, Signal.channelSuccess 7]) := by
  have h := data_write_failure_still_acknowledged failingClients 1 7 [104]
    { session_handle := 0,
      io := some { output := [], input := { written := [], failing := true } } }
    { output := [], input := { written := [], failing := true } }
    (by decide) rfl rfl
  exact h.trans (by decide)

/-- C8: the exec launcher's create call carries exactly the claimed
options — stdin, stdout and stderr attached, a pseudo-terminal, the
command fixed to the interactive shell ["bash"], and the user taken from
the request (engine default when absent) — the start call is
non-detached, each engine call is made at most once (no retry), and an
engine failure at either step surfaces as the error result. -/
theorem create_and_start_exec_contract
    (createExec : String → CreateExecOptions → Except String String)
    (startExec : String → StartExecOptions → Except String StartExecResults)
    (user : Option String) (container_id : String) :
    ((create_and_start_exec createExec startExec user container_id).2.head?
       = some (EngineCall.createExec container_id
           { attach_stdout := some true, attach_stderr := some true,
             attach_stdin := some true, cmd := some ["bash"],
             tty := some true, user := user }))
    ∧ (∀ e, createExec container_id
          { attach_stdout := some true, attach_stderr := some true,
            attach_stdin := some true, cmd := some ["bash"],
            tty := some true, user := user } = Except.error e →
       create_and_start_exec createExec startExec user container_id
         = (Except.error e,
            [EngineCall.createExec container_id
              { attach_stdout := some true, attach_stderr := some true,
                attach_stdin := some true, cmd := some ["bash"],
                tty := some true, user := user }]))
    ∧ (∀ exec_id e, createExec container_id
          { attach_stdout := some true, attach_stderr := some true,
            attach_stdin := some true, cmd := some ["bash"],
            tty := some true, user := user } = Except.ok exec_id →
       startExec exec_id { detach := false } = Except.error e →
       create_and_start_exec createExec startExec user container_id
         = (Except.error e,
            [EngineCall.createExec container_id
              { attach_stdout := some true, attach_stderr := some true,
                attach_stdin := some true, cmd := some ["bash"],
                tty := some true, user := user },
             EngineCall.startExec exec_id { detach := false }]))
    ∧ (∀ exec_id results, createExec container_id
          { attach_stdout := some true, attach_stderr := some true,
            attach_stdin := some true, cmd := some ["bash"],
            tty := some true, user := user } = Except.ok exec_id →
       startExec exec_id { detach := false } = Except.ok results →
       create_and_start_exec createExec startExec user container_id
         = (Except.ok results,
            [EngineCall.createExec container_id
              { attach_stdout := some true, attach_stderr := some true,
                attach_stdin := some true, cmd := some ["bash"],
                tty := some true, user := user },
             EngineCall.startExec exec_id { detach := false }])) := by
  refine ⟨?_, ?_, ?_, ?_⟩
  · cases h : createExec container_id
      { attach_stdout := some true, attach_stderr := some true,
        attach_stdin := some true, cmd := some ["bash"],
        tty := some true, user := user } with
    | error e => simp [create_and_start_exec, h]
    | ok exec_id =>
      cases h2 : startExec exec_id { detach := false } with
      | error e => simp [create_and_start_exec, h, h2]
      | ok results => simp [create_and_start_exec, h, h2]
  · intro e h
    simp [create_and_start_exec, h]
  · intro exec_id e h h2
    simp [create_and_start_exec, h, h2]
  · intro exec_id results h h2
    simp [create_and_start_exec, h, h2]

/-- Witness for `create_and_start_exec_contract`: against the accepting
demo engine, the launch succeeds attached after exactly one create call
and one start call. -/
theorem create_and_start_exec_contract_witness :
    create_and_start_exec okCreate okStartAttached (some "bob") "c0"
      = (Except.ok
           (StartExecResults.attached { written := [], failing := false } []),
         [EngineCall.createExec "c0"
            { attach_stdout := some true, attach_stderr := some true,
              attach_stdin := some true, cmd := some ["bash"],
              tty := some true, user := some "bob" },
          EngineCall.startExec "exec1" { detach := false }]) :=
  (create_and_start_exec_contract okCreate okStartAttached
      (some "bob") "c0").2.2.2 "exec1"
    (StartExecResults.attached { written := [], failing := false } []) rfl rfl

/-- C2 counterexample: an exec request whose container resolution fails
(well-formed payload targeting "db1", empty container list) makes the
handler return `Err` before reaching `session.request_success()`: no
signal of any kind — in particular no request-failure acknowledgement —
is sent on the request-status channel. -/
theorem exec_resolution_failure_sends_no_signal :
    exec_request ["-t", "db1"] [] okCreate okStartAttached demoClients 1 7
      = ExecOutcome.errored demoClients
          (HandlerError.docker
            (DockerError.dockerContainerWaitError
              "No Available Container matches" 0))
    ∧ sentSignals
        (exec_request ["-t", "db1"] [] okCreate okStartAttached demoClients 1 7)
        = [] := by
  exact ⟨by decide, by decide⟩

/-- C2 amended: an exec-request acknowledgement is sent only on success
(request success then channel success); on resolution failure, and on
launch failure, the handler returns an `Err` outcome with no signal sent
at all, the registry untouched — so the channel stays registered — and
no request-failure signal exists on any path. -/
theorem exec_request_signal_policy (payload : List String)
    (containers : List ContainerSummary)
    (createExec : String → CreateExecOptions → Except String String)
    (startExec : String → StartExecOptions → Except String StartExecResults)
    (clients : Clients) (selfId channel : Nat) (args : ContainerArgs)
    (hp : parse_and_match_args payload = ParseOutcome.ok args) :
    (∀ e, find_ssh_enabled_container containers args.target args.user
        = Except.error e →
      exec_request payload containers createExec startExec clients selfId channel
        = ExecOutcome.errored clients (HandlerError.docker e)
      ∧ sentSignals
          (exec_request payload containers createExec startExec clients selfId
            channel) = [])
    ∧ (∀ t id e, find_ssh_enabled_container containers args.target args.user
          = Except.ok t →
       t.id = some id →
       (create_and_start_exec createExec startExec args.user id).1
          = Except.error e →
       exec_request payload containers createExec startExec clients selfId channel
         = ExecOutcome.errored clients (HandlerError.engine e)
       ∧ sentSignals
           (exec_request payload containers createExec startExec clients selfId
             channel) = [])
    ∧ (∀ t id input output client,
       find_ssh_enabled_container containers args.target args.user
          = Except.ok t →
       t.id = some id →
       (create_and_start_exec createExec startExec args.user id).1
          = Except.ok (StartExecResults.attached input output) →
       lookupClient clients (selfId, channel) = some client →
       exec_request payload containers createExec startExec clients selfId channel
         = ExecOutcome.completed
             (insertClient clients (selfId, channel)
               { client with io := some { output := output, input := input } })
             [Signal.requestSuccess, Signal.channelSuccess channel]
             (some { channel := channel, stream := output })) := by
  refine ⟨?_, ?_, ?_⟩
  · intro e hf
    constructor
    · simp [exec_request, hp, hf]
    · simp [exec_request, hp, hf, sentSignals]
  · intro t id e hf hid hcs
    constructor
    · simp [exec_request, hp, hf, hid, hcs]
    · simp [exec_request, hp, hf, hid, hcs, sentSignals]
  · intro t id input output client hf hid hcs hcl
    simp [exec_request, hp, hf, hid, hcs, handle_output, link_io, hcl]

/-- Witness for `exec_request_signal_policy`: a fully successful exec
request against the demo registry and engine completes with exactly the
two success signals and the spawned bridge task. -/
theorem exec_request_signal_policy_witness :
    exec_request ["-t", "db1"] demoContainers okCreate okStartAttached
        demoClients 1 7
      = ExecOutcome.completed
          (insertClient demoClients (1, 7)
            { session_handle := 0,
              io := some { output := [],
                           input := { written := [], failing := false } } })
          [Signal.requestSuccess, Signal.channelSuccess 7]
          (some { channel := 7, stream := [] }) :=
  (exec_request_signal_policy ["-t", "db1"] demoContainers okCreate
      okStartAttached demoClients 1 7 { user := none, target := "db1" }
      (by decide)).2.2
    { id := some "c0",
      labels := some [(SSH_ENABLE_LABEL_KEY, "true"),
                      (SSH_HOSTNAME_LABEL_KEY, "db1")] }
    "c0" { written := [], failing := false } []
    { session_handle := 0, io := none }
    (by decide) rfl rfl (by decide)

/-- C3 counterexample: a successful exec request on the demo registry
spawns the bridge task; running that task to completion produces only
reply-handle effects (the exit notice and one close) — the spawned
closure does not capture the clients map, no `remove` operation exists
in the source — and the Session Registry entry for key (1, 7) is still
present afterwards, contradicting the claim that the entry has been
removed once the exhaustion path completes. -/
theorem bridge_completion_entry_remains :
    (outcomeTask demoOutcome).isSome = true
    ∧ runBridgeTask ((outcomeTask demoOutcome).getD { channel := 0, stream := [] })
        = { sent := [strToBytes exitNotice], closes := 1 }
    ∧ (lookupClient (outcomeClients demoOutcome) (1, 7)).isSome = true := by
  exact ⟨by decide, by decide, by decide⟩

/-- C3 amended: when the outbound bridge's output stream is exhausted and
its exhaustion path completes, the bridge has pushed every stream chunk
plus the exit notice and closed the channel once, but the Session
Registry entry for the session key is NOT removed: no remove operation
is ever invoked, and the entry — still holding the installed attachment
— remains registered. -/
theorem bridge_exhaustion_performs_no_remove (clients : Clients)
    (client_id : SessionKey) (channel : Nat) (input : InputSink)
    (output : List LogStreamItem) (client : Client)
    (h : lookupClient clients client_id = some client) :
    ∃ clients2 task,
      link_io clients client_id channel input output = some (clients2, task)
      ∧ runBridgeTask task
          = { sent := drainStream channel output ++ [strToBytes exitNotice],
              closes := 1 }
      ∧ lookupClient clients2 client_id
          = some { client with io := some { output := output, input := input } } := by
  refine ⟨insertClient clients client_id
            { client with io := some { output := output, input := input } },
          { channel := channel, stream := output }, ?_, rfl, ?_⟩
  · simp [link_io, h]
  · exact lookupClient_insert clients client_id _

/-- Witness for `bridge_exhaustion_performs_no_remove` on the demo
registry with an already-exhausted output stream. -/
theorem bridge_exhaustion_performs_no_remove_witness :
    ∃ clients2 task,
      link_io demoClients (1, 7) 7 { written := [], failing := false } []
        = some (clients2, task)
      ∧ runBridgeTask task
          = { sent := drainStream 7 [] ++ [strToBytes exitNotice], closes := 1 }
      ∧ lookupClient clients2 (1, 7)
          = some { session_handle := 0,
                   io := some { output := [],
                                input := { written := [], failing := false } } } :=
  bridge_exhaustion_performs_no_remove demoClients (1, 7) 7
    { written := [], failing := false } [] { session_handle := 0, io := none }
    (by decide)

end TunnyD
